import Mathlib

/-!
Shallow embedding of the homematch property-search pipeline: the dialog
state machine and preference record (src/search/search.py), the highlight
extraction and personalization fallback (src/personalization/personalize.py),
and the vector-store wrapper (src/vector_store/store.py).  External services
(the text-generation model, the Chroma constructor and similarity search,
the file system) are modelled as explicit oracle parameters; everything the
repository itself computes is translated directly.
-/

namespace HomeMatch

/-- ASCII model of Python str.lower: lowercase each character. -/
def pyLower (s : String) : String :=
  ⟨s.data.map Char.toLower⟩

/-- Boolean test that the first list is a prefix of the second (char lists). -/
def listPrefixEq : List Char → List Char → Bool
  | [], _ => true
  | _ :: _, [] => false
  | a :: as, b :: bs => a == b && listPrefixEq as bs

/-- Boolean test that needle occurs as a contiguous sublist of hay. -/
def containsSub (needle : List Char) : List Char → Bool
  | [] => needle.isEmpty
  | c :: rest => listPrefixEq needle (c :: rest) || containsSub needle rest

/-- Model of the Python expression needle in hay (substring containment). -/
def strContains (hay needle : String) : Bool :=
  containsSub needle.data hay.data

/-- Split a character list at every whitespace character, keeping empty
pieces, accumulating the current piece in reverse. -/
def splitWsAux : List Char → List Char → List String
  | [], acc => [⟨acc.reverse⟩]
  | c :: rest, acc =>
      if c.isWhitespace then ⟨acc.reverse⟩ :: splitWsAux rest []
      else splitWsAux rest (c :: acc)

/-- Model of Python str.split with no argument: split on whitespace runs,
dropping empty pieces. -/
def pySplit (s : String) : List String :=
  (splitWsAux s.data []).filter (fun piece => piece != "")

/-- ConversationState enum from src/search/search.py. -/
inductive ConversationState
  | greeting
  | property_type
  | budget
  | bedrooms
  | bathrooms
  | outdoor_space
  | areas
  | commute
  | transport
  | amenities
  | community
  | features
  | priorities
  | confirmation
  | complete
deriving DecidableEq

/-- BuyerPreferences dataclass from src/search/search.py: every field is a
string defaulting to empty. -/
structure BuyerPreferences where
  property_type : String := ""
  budget_range : String := ""
  bedrooms : String := ""
  bathrooms : String := ""
  outdoor_space : String := ""
  preferred_areas : String := ""
  commute_location : String := ""
  commute_time : String := ""
  transport_preference : String := ""
  transport_priority : String := ""
  amenities : String := ""
  community_type : String := ""
  must_have_features : String := ""
  deal_breakers : String := ""
  special_requirements : String := ""
  top_priorities : String := ""
  additional_info : String := ""
deriving DecidableEq

/-- Result of one call to process_response: the new conversation state, the
new preference record, and the returned response text. -/
structure StepResult where
  state : ConversationState
  preferences : BuyerPreferences
  response : String
deriving DecidableEq

/-- PropertyPreferenceCollector.generate_summary: one line per populated
field, in collection order, between a fixed header and footer. -/
def generate_summary (p : BuyerPreferences) : String :=
  let summary := "Let me confirm what I\x27ve understood about your preferences:\n\n"
  let summary := if p.property_type != "" then summary ++ "• Property type: " ++ p.property_type ++ "\n" else summary
  let summary := if p.budget_range != "" then summary ++ "• Budget: " ++ p.budget_range ++ "\n" else summary
  let summary := if p.bedrooms != "" then summary ++ "• Bedrooms: " ++ p.bedrooms ++ "\n" else summary
  let summary := if p.bathrooms != "" then summary ++ "• Bathrooms: " ++ p.bathrooms ++ "\n" else summary
  let summary := if p.outdoor_space != "" then summary ++ "• Outdoor space: " ++ p.outdoor_space ++ "\n" else summary
  let summary := if p.preferred_areas != "" then summary ++ "• Preferred areas: " ++ p.preferred_areas ++ "\n" else summary
  let summary := if p.commute_location != "" then summary ++ "• Commute: " ++ p.commute_location ++ "\n" else summary
  let summary := if p.transport_preference != "" then summary ++ "• Transport: " ++ p.transport_preference ++ "\n" else summary
  let summary := if p.amenities != "" then summary ++ "• Amenities: " ++ p.amenities ++ "\n" else summary
  let summary := if p.community_type != "" then summary ++ "• Community type: " ++ p.community_type ++ "\n" else summary
  let summary := if p.must_have_features != "" then summary ++ "• Features: " ++ p.must_have_features ++ "\n" else summary
  let summary := if p.top_priorities != "" then summary ++ "• Top priorities: " ++ p.top_priorities ++ "\n" else summary
  summary ++ "\nIs this correct? If there\x27s anything else important I should know about your ideal property, please let me know."

/-- The affirmative test of the confirmation branch: `"yes" in user_input.lower()
or "correct" in user_input.lower()`. -/
def confirmation_affirmative (user_input : String) : Bool :=
  strContains (pyLower user_input) "yes" || strContains (pyLower user_input) "correct"

/-- PropertyPreferenceCollector.process_response as a pure step function of
(state, preferences, user input), following the source conditional chain
branch by branch.  The two states absent from the chain (PROPERTY_TYPE and
COMPLETE) fall to the final else branch, which changes nothing. -/
def process_response (state : ConversationState) (prefs : BuyerPreferences)
    (user_input : String) : StepResult :=
  match state with
  | .greeting =>
      { state := .budget
        preferences := { prefs with property_type := user_input }
        response := "Great! What\x27s your budget range?" }
  | .budget =>
      { state := .bedrooms
        preferences := { prefs with budget_range := user_input }
        response := "How many bedrooms do you need? Any flexibility on this?" }
  | .bedrooms =>
      { state := .bathrooms
        preferences := { prefs with bedrooms := user_input }
        response := "Any preference on bathrooms? Is an en-suite important?" }
  | .bathrooms =>
      { state := .outdoor_space
        preferences := { prefs with bathrooms := user_input }
        response := "Do you need outdoor space? Garden, balcony, or roof terrace?" }
  | .outdoor_space =>
      { state := .areas
        preferences := { prefs with outdoor_space := user_input }
        response := "Are there specific areas in London you\x27re interested in or want to avoid?" }
  | .areas =>
      { state := .commute
        preferences := { prefs with preferred_areas := user_input }
        response := "Where do you need to commute to for work? And what\x27s your acceptable commute time?" }
  | .commute =>
      { state := .transport
        preferences := { prefs with commute_location := user_input }
        response := "Do you prefer tube, bus, rail, or are you flexible with transport? How important are direct transport links?" }
  | .transport =>
      { state := .amenities
        preferences := { prefs with transport_preference := user_input }
        response := "What\x27s important to have nearby: shops, restaurants, parks, gyms, schools? Do you prefer busy areas with nightlife or quieter residential areas?" }
  | .amenities =>
      { state := .community
        preferences := { prefs with amenities := user_input }
        response := "Do you prefer established family neighborhoods, trendy up-and-coming areas, or central locations?" }
  | .community =>
      { state := .features
        preferences := { prefs with community_type := user_input }
        response := "Any must-have features (parking, period features, modern kitchen, etc.) or deal-breakers? Any special requirements?" }
  | .features =>
      { state := .priorities
        preferences := { prefs with must_have_features := user_input }
        response := "If you had to choose, what are your top 3 most important factors from everything we\x27ve discussed?" }
  | .priorities =>
      let p := { prefs with top_priorities := user_input }
      { state := .confirmation
        preferences := p
        response := generate_summary p }
  | .confirmation =>
      if confirmation_affirmative user_input then
        { state := .complete
          preferences := prefs
          response := "Perfect! I\x27ll now generate your property search query." }
      else
        { state := .complete
          preferences := { prefs with additional_info := user_input }
          response := "Thanks for the clarification. I\x27ll now generate your property search query." }
  | .property_type =>
      { state := .property_type
        preferences := prefs
        response := "I\x27m not sure how to respond to that. Could you try again?" }
  | .complete =>
      { state := .complete
        preferences := prefs
        response := "I\x27m not sure how to respond to that. Could you try again?" }

/-- Run the dialog over a list of answers, threading state and record. -/
def runDialog : ConversationState → BuyerPreferences → List String →
    ConversationState × BuyerPreferences
  | st, p, [] => (st, p)
  | st, p, a :: rest =>
      let r := process_response st p a
      runDialog r.state r.preferences rest

/-- Names of the BuyerPreferences fields, for tracking which dialog state
writes which field. -/
inductive PrefField
  | property_type
  | budget_range
  | bedrooms
  | bathrooms
  | outdoor_space
  | preferred_areas
  | commute_location
  | commute_time
  | transport_preference
  | transport_priority
  | amenities
  | community_type
  | must_have_features
  | deal_breakers
  | special_requirements
  | top_priorities
  | additional_info
deriving DecidableEq

/-- Read the named field of a preference record. -/
def getField (p : BuyerPreferences) : PrefField → String
  | .property_type => p.property_type
  | .budget_range => p.budget_range
  | .bedrooms => p.bedrooms
  | .bathrooms => p.bathrooms
  | .outdoor_space => p.outdoor_space
  | .preferred_areas => p.preferred_areas
  | .commute_location => p.commute_location
  | .commute_time => p.commute_time
  | .transport_preference => p.transport_preference
  | .transport_priority => p.transport_priority
  | .amenities => p.amenities
  | .community_type => p.community_type
  | .must_have_features => p.must_have_features
  | .deal_breakers => p.deal_breakers
  | .special_requirements => p.special_requirements
  | .top_priorities => p.top_priorities
  | .additional_info => p.additional_info

/-- The fields one call to process_response writes, per source branch: each
interview state writes its one field; the confirmation branch writes
additional_info only on a non-affirmative reply; the else branch (reached
for PROPERTY_TYPE and COMPLETE) writes nothing. -/
def writesOf : ConversationState → String → List PrefField
  | .greeting, _ => [.property_type]
  | .budget, _ => [.budget_range]
  | .bedrooms, _ => [.bedrooms]
  | .bathrooms, _ => [.bathrooms]
  | .outdoor_space, _ => [.outdoor_space]
  | .areas, _ => [.preferred_areas]
  | .commute, _ => [.commute_location]
  | .transport, _ => [.transport_preference]
  | .amenities, _ => [.amenities]
  | .community, _ => [.community_type]
  | .features, _ => [.must_have_features]
  | .priorities, _ => [.top_priorities]
  | .confirmation, a => if confirmation_affirmative a then [] else [.additional_info]
  | .property_type, _ => []
  | .complete, _ => []

/-- Run the dialog and also accumulate, in order, the list of fields written
by each step (the write log). -/
def runDialogLog : ConversationState → BuyerPreferences → List String →
    ConversationState × BuyerPreferences × List PrefField
  | st, p, [] => (st, p, [])
  | st, p, a :: rest =>
      let r := process_response st p a
      let t := runDialogLog r.state r.preferences rest
      (t.1, t.2.1, writesOf st a ++ t.2.2)

/-- ListingPersonalizer.identify_preference_highlights from
src/personalization/personalize.py, translated branch by branch: each of the
six checks conditionally appends one labeled string to the accumulated list. -/
def identify_preference_highlights (original_content : String)
    (preferences : BuyerPreferences) : List String :=
  let content_lower := pyLower original_content
  let highlights : List String := []
  let highlights :=
    if preferences.property_type != "" &&
        strContains content_lower (pyLower preferences.property_type) then
      highlights ++ ["Property Type: " ++ preferences.property_type]
    else highlights
  let highlights :=
    if preferences.bedrooms != "" &&
        (["bedroom", "bed"].any (fun keyword => strContains content_lower keyword)) then
      highlights ++ ["Bedroom Requirements: " ++ preferences.bedrooms]
    else highlights
  let highlights :=
    if preferences.outdoor_space != "" && pyLower preferences.outdoor_space != "no" &&
        (["garden", "balcony", "terrace", "outdoor", "patio"].any
          (fun keyword => strContains content_lower keyword)) then
      highlights ++ ["Outdoor Space Available"]
    else highlights
  let area_words := pySplit (pyLower preferences.preferred_areas)
  let highlights :=
    if preferences.preferred_areas != "" &&
        (area_words.any (fun word => decide (word.length > 3) && strContains content_lower word)) then
      highlights ++ ["Preferred Location: " ++ preferences.preferred_areas]
    else highlights
  let highlights :=
    if preferences.transport_preference != "" &&
        (["tube", "station", "transport", "bus", "rail", "line"].any
          (fun keyword => strContains content_lower keyword)) then
      highlights ++ ["Good Transport Links"]
    else highlights
  let amenity_words := pySplit (pyLower preferences.amenities)
  let matched_amenities :=
    amenity_words.filter (fun word => strContains content_lower word && decide (word.length > 3))
  let highlights :=
    if preferences.amenities != "" && !matched_amenities.isEmpty then
      highlights ++ ["Desired Amenities: " ++ String.intercalate ", " (matched_amenities.take 3)]
    else highlights
  highlights

/-- Spec-side rule (property type): literal case-insensitive substring match
of the stated property type, yielding one labeled highlight. -/
def spec_property_type_highlight (content : String) (p : BuyerPreferences) : List String :=
  if p.property_type != "" && strContains (pyLower content) (pyLower p.property_type) then
    ["Property Type: " ++ p.property_type]
  else []

/-- Spec-side rule (bedrooms): token "bedroom" or "bed" present in the
content, yielding one labeled highlight. -/
def spec_bedrooms_highlight (content : String) (p : BuyerPreferences) : List String :=
  if p.bedrooms != "" &&
      (["bedroom", "bed"].any (fun keyword => strContains (pyLower content) keyword)) then
    ["Bedroom Requirements: " ++ p.bedrooms]
  else []

/-- Spec-side rule (outdoor space): stated and not the negative answer "no",
matched against the fixed vocabulary, yielding one labeled highlight. -/
def spec_outdoor_highlight (content : String) (p : BuyerPreferences) : List String :=
  if p.outdoor_space != "" && pyLower p.outdoor_space != "no" &&
      (["garden", "balcony", "terrace", "outdoor", "patio"].any
        (fun keyword => strContains (pyLower content) keyword)) then
    ["Outdoor Space Available"]
  else []

/-- Spec-side rule (preferred areas): any word of the preference longer than
3 characters appearing in the content, yielding one labeled highlight. -/
def spec_areas_highlight (content : String) (p : BuyerPreferences) : List String :=
  if p.preferred_areas != "" &&
      ((pySplit (pyLower p.preferred_areas)).any
        (fun word => decide (word.length > 3) && strContains (pyLower content) word)) then
    ["Preferred Location: " ++ p.preferred_areas]
  else []

/-- Spec-side rule (transport): matched against the fixed transport
vocabulary, yielding one labeled highlight. -/
def spec_transport_highlight (content : String) (p : BuyerPreferences) : List String :=
  if p.transport_preference != "" &&
      (["tube", "station", "transport", "bus", "rail", "line"].any
        (fun keyword => strContains (pyLower content) keyword)) then
    ["Good Transport Links"]
  else []

/-- Spec-side rule (amenities): any word of the amenities value longer than
3 characters appearing in the content; the first three matched words are
surfaced in one labeled highlight. -/
def spec_amenities_highlight (content : String) (p : BuyerPreferences) : List String :=
  let matched_amenities :=
    (pySplit (pyLower p.amenities)).filter
      (fun word => strContains (pyLower content) word && decide (word.length > 3))
  if p.amenities != "" && !matched_amenities.isEmpty then
    ["Desired Amenities: " ++ String.intercalate ", " (matched_amenities.take 3)]
  else []

/-- Metadata map of an indexed document, modelling the Python dict. -/
structure Metadata where
  entries : List (String × String)
deriving DecidableEq

/-- Model of the Python dict.get with a default value. -/
def Metadata.get (m : Metadata) (key dflt : String) : String :=
  match m.entries.lookup key with
  | some v => v
  | none => dflt

/-- One search-result record as the personalizer consumes it: the content,
metadata and similarity_score keys of the result dict (score values are
opaque pass-through data). -/
structure SearchResult (Score : Type) where
  content : String
  metadata : Metadata
  similarity_score : Score
deriving DecidableEq

/-- PersonalizedListing dataclass from src/personalization/personalize.py. -/
structure PersonalizedListing (Score : Type) where
  original_content : String
  personalized_description : String
  category : String
  similarity_score : Score
  preference_highlights : List String
  metadata : Metadata
deriving DecidableEq

/-- ListingPersonalizer.personalize_listings: for each search result, ask
the external rewrite capability (an oracle from preferences, content and
category to a result or a failure); on success build the personalized
listing from the trimmed response, on any failure build the fallback
listing carrying the original content and no highlights.  Every input
result yields exactly one output listing, in order. -/
def personalize_listings {Score : Type}
    (gen : BuyerPreferences → String → String → Except String String)
    (search_results : List (SearchResult Score))
    (buyer_preferences : BuyerPreferences) : List (PersonalizedListing Score) :=
  search_results.map (fun result =>
    let category := result.metadata.get "category" "Unknown"
    match gen buyer_preferences result.content category with
    | .ok personalized_content =>
        { original_content := result.content
          personalized_description := personalized_content.trim
          category := category
          similarity_score := result.similarity_score
          preference_highlights :=
            identify_preference_highlights result.content buyer_preferences
          metadata := result.metadata }
    | .error _ =>
        { original_content := result.content
          personalized_description := result.content
          category := category
          similarity_score := result.similarity_score
          preference_highlights := []
          metadata := result.metadata })

/-- Error type distinguishing the invalid-state ValueError of
generate_semantic_query from a failure of the external text-generation call. -/
inductive QueryError
  | invalidState
  | externalFailure (msg : String)
deriving DecidableEq

/-- PropertyPreferenceCollector.generate_semantic_query: raise the
invalid-state error unless the conversation state is COMPLETE, otherwise
return the trimmed output of the external text-generation capability. -/
def generate_semantic_query (llm : BuyerPreferences → Except String String)
    (state : ConversationState) (prefs : BuyerPreferences) :
    Except QueryError String :=
  if state != ConversationState.complete then
    .error .invalidState
  else
    match llm prefs with
    | .ok query => .ok query.trim
    | .error msg => .error (.externalFailure msg)

/-- A parsed JSON value, as json.load may return it: null, boolean, number,
string, array or object (number precision is irrelevant to this code). -/
inductive Json
  | null
  | bool (b : Bool)
  | num (n : Int)
  | str (s : String)
  | arr (elements : List Json)
  | obj (fields : List (String × Json))

/-- The Python exceptions load_listings_from_json can raise without
catching them: AttributeError from calling .items() on a non-dict,
TypeError from enumerate over a non-iterable value, UnicodeDecodeError
from reading a non-UTF-8 file (only FileNotFoundError and JSONDecodeError
are caught). -/
inductive PyError
  | attributeError
  | typeError
  | unicodeDecodeError
deriving DecidableEq

/-- The outcome of opening, reading and json.load-ing the corpus file:
FileNotFoundError (caught), UnicodeDecodeError while reading (uncaught),
json.JSONDecodeError (caught), or a parsed JSON value. -/
inductive ReadResult
  | fileNotFound
  | undecodable
  | invalidJSON
  | parsed (raw_data : Json)

/-- PropertyListing dataclass from src/vector_store/store.py.  The content
field is declared str but the dataclass does not enforce it: at runtime it
holds whatever JSON value the loader loop reached, so it is modelled as a
JSON value. -/
structure PropertyListing where
  id : String
  category : String
  content : Json

/-- Python enumerate over a JSON value: a list yields its elements, a
string yields its characters one by one, a dict yields its keys, and
anything else raises TypeError. -/
def pyEnumerate : Json → Except PyError (List Json)
  | .arr elements => .ok elements
  | .str s => .ok (s.data.map (fun c => Json.str ⟨[c]⟩))
  | .obj fields => .ok (fields.map (fun kv => Json.str kv.1))
  | _ => .error .typeError

/-- The inner loop of load_listings_from_json for one category: enumerate
the category value (which may raise TypeError) and build one
PropertyListing per enumerated item, with the id built from category,
position and the random uuid4 fragment (supplied as an oracle). -/
def build_category (category : String) (value : Json)
    (randSuffix : String → Nat → String) :
    Except PyError (List PropertyListing) :=
  match pyEnumerate value with
  | .error e => .error e
  | .ok items => .ok ((List.enum items).map (fun entry =>
      { id := category ++ "_" ++ toString entry.1 ++ "_" ++ randSuffix category entry.1
        category := category
        content := entry.2 }))

/-- The outer loop of load_listings_from_json over raw_data.items(): the
categories are processed in order, appending their listings; the first
raised error aborts the whole call (the partial local list is discarded). -/
def build_listings : List (String × Json) → (String → Nat → String) →
    Except PyError (List PropertyListing)
  | [], _ => .ok []
  | pair :: rest, randSuffix =>
      match build_category pair.1 pair.2 randSuffix with
      | .error e => .error e
      | .ok first =>
          match build_listings rest randSuffix with
          | .error e => .error e
          | .ok later => .ok (first ++ later)

/-- PropertyVectorStore.load_listings_from_json: FileNotFoundError and
json.JSONDecodeError are caught, reported, and turned into an empty list;
a UnicodeDecodeError while reading propagates; a parsed value that is not
a dict raises AttributeError at raw_data.items(); a dict is walked by the
listing-building loops, which may raise TypeError. -/
def load_listings_from_json (file : ReadResult)
    (randSuffix : String → Nat → String) :
    Except PyError (List PropertyListing) :=
  match file with
  | .fileNotFound => .ok []
  | .undecodable => .error .unicodeDecodeError
  | .invalidJSON => .ok []
  | .parsed raw_data =>
      match raw_data with
      | .obj fields => build_listings fields randSuffix
      | _ => .error .attributeError

/-- A LangChain Document as built by create_documents: page content plus
metadata (the page content carries whatever value the listing held). -/
structure StoreDoc where
  page_content : Json
  metadata : Metadata

/-- The state of a Chroma collection visible to this code: the list of
stored documents (its count and contents). -/
structure ChromaCollection where
  docs : List StoreDoc

/-- PropertyVectorStore state: the persist directory and the vectorstore
handle, None until some operation assigns it. -/
structure PropertyVectorStore where
  persist_directory : String := "data/chroma_db"
  vectorstore : Option ChromaCollection := none

/-- PropertyVectorStore.create_documents: one document per listing, with id,
category and source metadata. -/
def create_documents (listings : List PropertyListing) : List StoreDoc :=
  listings.map (fun listing =>
    { page_content := listing.content
      metadata := ⟨[("id", listing.id), ("category", listing.category),
                    ("source", "generated_listings")]⟩ })

/-- PropertyVectorStore.initialize_vectorstore: Chroma.from_documents writes
all the documents into the collection and assigns the handle. -/
def initialize_vectorstore (s : PropertyVectorStore)
    (documents : List StoreDoc) : PropertyVectorStore :=
  { s with vectorstore := some ⟨documents⟩ }

/-- PropertyVectorStore.load_existing_vectorstore: the Chroma constructor
(an oracle that may throw or return the on-disk collection) is invoked; on
an exception the handle is left unchanged and False is returned; on success
the handle is assigned FIRST, and only then the document count decides the
returned flag — an empty collection still leaves the handle assigned. -/
def load_existing_vectorstore (chromaOpen : Except String ChromaCollection)
    (s : PropertyVectorStore) : PropertyVectorStore × Bool :=
  match chromaOpen with
  | .error _ => (s, false)
  | .ok coll =>
      let s1 := { s with vectorstore := some coll }
      if coll.docs.length > 0 then (s1, true) else (s1, false)

/-- The load-first phase of setup_vectorstore: when force_rebuild is set
the existing-collection load is skipped entirely (the conjunction
short-circuits), otherwise load_existing_vectorstore runs, with its state
effect and flag. -/
def load_phase (chromaOpen : Except String ChromaCollection)
    (force_rebuild : Bool) (s : PropertyVectorStore) :
    PropertyVectorStore × Bool :=
  if force_rebuild then (s, false) else load_existing_vectorstore chromaOpen s

/-- PropertyVectorStore.setup_vectorstore: unless force_rebuild is set, try
to load the existing collection and return True on success; otherwise load
the corpus — an uncaught loader exception propagates out of this method,
leaving the store state as the load phase left it — then fail (False) when
no listings were obtained, and otherwise build the documents and
initialize the collection with all of them.  The result pairs the store
state after the call with the returned flag or the raised error. -/
def setup_vectorstore (chromaOpen : Except String ChromaCollection)
    (file : ReadResult) (randSuffix : String → Nat → String)
    (force_rebuild : Bool) (s : PropertyVectorStore) :
    PropertyVectorStore × Except PyError Bool :=
  let lp := load_phase chromaOpen force_rebuild s
  if lp.2 then (lp.1, .ok true)
  else
    match load_listings_from_json file randSuffix with
    | .error e => (lp.1, .error e)
    | .ok listings =>
        if listings.isEmpty then (lp.1, .ok false)
        else (initialize_vectorstore lp.1 (create_documents listings), .ok true)

/-- The not-initialized error message of semantic_search. -/
def notInitializedMsg : String :=
  "Vector store not initialized. Call setup_vectorstore() first."

/-- One formatted search result as returned by semantic_search: the stored
document content, its metadata and a similarity score. -/
structure StoreSearchResult (Score : Type) where
  content : Json
  metadata : Metadata
  similarity_score : Score

/-- PropertyVectorStore.semantic_search: raise the not-initialized error
when the vectorstore handle is unassigned; otherwise run the similarity
search (an oracle over the collection, query, k and optional filter) and
format each (document, score) pair into a result record. -/
def semantic_search {Score : Type}
    (searchOracle : ChromaCollection → String → Nat →
      Option (List (String × String)) → List (StoreDoc × Score))
    (s : PropertyVectorStore) (query : String) (k : Nat)
    (filter_dict : Option (List (String × String))) :
    Except String (List (StoreSearchResult Score)) :=
  match s.vectorstore with
  | none => .error notInitializedMsg
  | some coll =>
      .ok ((searchOracle coll query k filter_dict).map (fun pair =>
        { content := pair.1.page_content
          metadata := pair.1.metadata
          similarity_score := pair.2 }))

/-- Shape lemma: conditionally appending to an accumulator is appending a
conditional singleton. -/
theorem ite_append_one (c : Bool) (xs ys : List String) :
    (if c then xs ++ ys else xs) = xs ++ (if c then ys else []) := by
  cases c <;> simp

/-- Grounding of the write log: one call to process_response sets exactly
the fields listed by writesOf to the user input and leaves every other
field unchanged. -/
theorem writesOf_correct (st : ConversationState) (p : BuyerPreferences)
    (a : String) (f : PrefField) :
    getField (process_response st p a).preferences f =
      if f ∈ writesOf st a then a else getField p f := by
  by_cases h : confirmation_affirmative a = true <;>
    cases st <;> cases f <;>
      simp [process_response, writesOf, getField, h]

/-- C2: in the confirmation state, an input containing "yes" or "correct"
(case-insensitive) transitions to complete leaving the record untouched;
any other input transitions to complete with the input stored verbatim in
additional_info — in both cases the single step lands in complete. -/
theorem C2_confirmation_single_transition (user_input : String)
    (prefs : BuyerPreferences) :
    (process_response .confirmation prefs user_input).state =
      ConversationState.complete ∧
    (if confirmation_affirmative user_input then
        (process_response .confirmation prefs user_input).preferences = prefs
      else
        (process_response .confirmation prefs user_input).preferences =
          { prefs with additional_info := user_input }) := by
  by_cases h : confirmation_affirmative user_input = true <;>
    simp [process_response, h]

/-- C5: generate_semantic_query fails with the invalid-state error if and
only if the conversation state is not complete. -/
theorem C5_invalid_state_iff (llm : BuyerPreferences → Except String String)
    (state : ConversationState) (prefs : BuyerPreferences) :
    generate_semantic_query llm state prefs = Except.error QueryError.invalidState ↔
      state ≠ ConversationState.complete := by
  by_cases h : state = ConversationState.complete
  · subst h
    cases hllm : llm prefs <;> simp [generate_semantic_query, hllm]
  · have hb : (state != ConversationState.complete) = true := by
      simp [bne_iff_ne, h]
    simp [generate_semantic_query, hb, h]

/-- C8: the complete state is terminal: any further input returns the fixed
fallback response, the record is not mutated, and the state stays complete. -/
theorem C8_complete_terminal (user_input : String) (prefs : BuyerPreferences) :
    process_response .complete prefs user_input =
      { state := ConversationState.complete
        preferences := prefs
        response := "I\x27m not sure how to respond to that. Could you try again?" } :=
  rfl

/-- C10: the affirmative test is substring containment on the lowercased
input, so any input containing "yes" or "correct" — including negations
such as "incorrect" or "no, that is not correct" — transitions to complete
without writing additional_info. -/
theorem C10_affirmative_substring :
    (∀ (user_input : String) (prefs : BuyerPreferences),
        confirmation_affirmative user_input = true →
        (process_response .confirmation prefs user_input).state =
          ConversationState.complete ∧
        (process_response .confirmation prefs user_input).preferences = prefs) ∧
    (∀ user_input : String, confirmation_affirmative user_input =
      (strContains (pyLower user_input) "yes" ||
        strContains (pyLower user_input) "correct")) ∧
    confirmation_affirmative "incorrect" = true ∧
    confirmation_affirmative "No, that is not correct" = true := by
  refine ⟨?_, fun _ => rfl, by decide, by decide⟩
  intro user_input prefs h
  simp [process_response, h]

/-- Closed instance of C10 at the negation "incorrect": the dialog treats
it as affirmative and completes without writing additional_info. -/
theorem C10_affirmative_substring_witness :
    (process_response .confirmation {} "incorrect").state =
      ConversationState.complete ∧
    (process_response .confirmation {} "incorrect").preferences = {} :=
  C10_affirmative_substring.1 "incorrect" {} (by decide)

/-- C1 fails as stated: on the well-formed 13-answer run whose confirmation
answer is "yes", the run completes but the 13th targeted field
(additional_info) stays empty instead of equalling the 13th answer. -/
theorem C1_counterexample :
    (runDialog .greeting {} ["flat", "400k to 500k", "2", "1", "garden", "camden",
        "bank", "tube", "parks", "family", "parking", "price", "yes"]).1 =
      ConversationState.complete ∧
    (runDialog .greeting {} ["flat", "400k to 500k", "2", "1", "garden", "camden",
        "bank", "tube", "parks", "family", "parking", "price", "yes"]).2.additional_info
      ≠ "yes" := by
  decide

/-- C1 amended: over any 13-answer run at the expected states, the first 12
targeted fields equal the submitted answers in order and the final state is
complete; the 13th targeted field (additional_info) equals the 13th answer
when that answer is non-affirmative, and stays empty when it contains "yes"
or "correct" (case-insensitive). -/
theorem C1_amended (a1 a2 a3 a4 a5 a6 a7 a8 a9 a10 a11 a12 a13 : String) :
    (runDialog .greeting {} [a1, a2, a3, a4, a5, a6, a7, a8, a9, a10, a11, a12, a13]).1 =
      ConversationState.complete ∧
    (runDialog .greeting {} [a1, a2, a3, a4, a5, a6, a7, a8, a9, a10, a11, a12, a13]).2 =
      { property_type := a1
        budget_range := a2
        bedrooms := a3
        bathrooms := a4
        outdoor_space := a5
        preferred_areas := a6
        commute_location := a7
        transport_preference := a8
        amenities := a9
        community_type := a10
        must_have_features := a11
        top_priorities := a12
        additional_info := if confirmation_affirmative a13 then "" else a13 } := by
  by_cases h : confirmation_affirmative a13 = true <;>
    simp [runDialog, process_response, h]

/-- C9 fails as stated: on a concrete complete run the write log shows the
fields commute_time, transport_priority, deal_breakers and
special_requirements are written zero times, not exactly once, and stay
empty. -/
theorem C9_counterexample :
    (runDialogLog .greeting {} ["flat", "400k", "2", "1", "garden", "camden",
        "bank", "tube", "parks", "family", "parking", "price", "yes"]).1 =
      ConversationState.complete ∧
    List.count PrefField.commute_time
      (runDialogLog .greeting {} ["flat", "400k", "2", "1", "garden", "camden",
        "bank", "tube", "parks", "family", "parking", "price", "yes"]).2.2 = 0 ∧
    List.count PrefField.transport_priority
      (runDialogLog .greeting {} ["flat", "400k", "2", "1", "garden", "camden",
        "bank", "tube", "parks", "family", "parking", "price", "yes"]).2.2 = 0 ∧
    List.count PrefField.deal_breakers
      (runDialogLog .greeting {} ["flat", "400k", "2", "1", "garden", "camden",
        "bank", "tube", "parks", "family", "parking", "price", "yes"]).2.2 = 0 ∧
    List.count PrefField.special_requirements
      (runDialogLog .greeting {} ["flat", "400k", "2", "1", "garden", "camden",
        "bank", "tube", "parks", "family", "parking", "price", "yes"]).2.2 = 0 ∧
    (runDialogLog .greeting {} ["flat", "400k", "2", "1", "garden", "camden",
        "bank", "tube", "parks", "family", "parking", "price", "yes"]).2.1.commute_time
      = "" := by
  decide

/-- C9 amended: every field starts empty; over any complete 13-answer run
each of the 12 interview fields is written exactly once, additional_info is
written exactly once when the confirmation answer is non-affirmative and
zero times otherwise, and the four fields no dialog state targets
(commute_time, transport_priority, deal_breakers, special_requirements)
are written zero times. -/
theorem C9_amended (a1 a2 a3 a4 a5 a6 a7 a8 a9 a10 a11 a12 a13 : String) :
    (∀ f : PrefField, getField ({} : BuyerPreferences) f = "") ∧
    (runDialogLog .greeting {} [a1, a2, a3, a4, a5, a6, a7, a8, a9, a10, a11, a12, a13]).1 =
      ConversationState.complete ∧
    ([PrefField.property_type, PrefField.budget_range, PrefField.bedrooms,
      PrefField.bathrooms, PrefField.outdoor_space, PrefField.preferred_areas,
      PrefField.commute_location, PrefField.transport_preference,
      PrefField.amenities, PrefField.community_type,
      PrefField.must_have_features, PrefField.top_priorities].all (fun f =>
        List.count f
          (runDialogLog .greeting {}
            [a1, a2, a3, a4, a5, a6, a7, a8, a9, a10, a11, a12, a13]).2.2 == 1)) = true ∧
    List.count PrefField.additional_info
      (runDialogLog .greeting {}
        [a1, a2, a3, a4, a5, a6, a7, a8, a9, a10, a11, a12, a13]).2.2 =
      (if confirmation_affirmative a13 then 0 else 1) ∧
    ([PrefField.commute_time, PrefField.transport_priority,
      PrefField.deal_breakers, PrefField.special_requirements].all (fun f =>
        List.count f
          (runDialogLog .greeting {}
            [a1, a2, a3, a4, a5, a6, a7, a8, a9, a10, a11, a12, a13]).2.2 == 0)) = true := by
  refine ⟨fun f => by cases f <;> rfl, ?_⟩
  by_cases h : confirmation_affirmative a13 = true <;>
    simp [runDialogLog, process_response, writesOf, h]

/-- C3: highlight extraction decomposes into six independent rules applied
to (content, preferences) and concatenated in fixed order — every rule is
evaluated, none short-circuits another, and each successful rule
contributes exactly one labeled highlight string. -/
theorem C3_highlight_decomposition (content : String) (p : BuyerPreferences) :
    identify_preference_highlights content p =
      spec_property_type_highlight content p ++ spec_bedrooms_highlight content p ++
      spec_outdoor_highlight content p ++ spec_areas_highlight content p ++
      spec_transport_highlight content p ++ spec_amenities_highlight content p ∧
    (spec_property_type_highlight content p).length ≤ 1 ∧
    (spec_bedrooms_highlight content p).length ≤ 1 ∧
    (spec_outdoor_highlight content p).length ≤ 1 ∧
    (spec_areas_highlight content p).length ≤ 1 ∧
    (spec_transport_highlight content p).length ≤ 1 ∧
    (spec_amenities_highlight content p).length ≤ 1 := by
  refine ⟨?_, ?_, ?_, ?_, ?_, ?_, ?_⟩
  · simp only [identify_preference_highlights, spec_property_type_highlight,
      spec_bedrooms_highlight, spec_outdoor_highlight, spec_areas_highlight,
      spec_transport_highlight, spec_amenities_highlight]
    rw [ite_append_one, ite_append_one, ite_append_one, ite_append_one,
      ite_append_one, ite_append_one]
    simp only [List.nil_append, List.append_assoc]
  · simp only [spec_property_type_highlight]; split <;> simp
  · simp only [spec_bedrooms_highlight]; split <;> simp
  · simp only [spec_outdoor_highlight]; split <;> simp
  · simp only [spec_areas_highlight]; split <;> simp
  · simp only [spec_transport_highlight]; split <;> simp
  · simp only [spec_amenities_highlight]; split <;> simp

/-- C4: personalization never drops a result (one output listing per search
result, in order), and whenever the external rewrite call fails on a
result, the corresponding output carries the original content as its
personalized description and an empty (not missing) highlight list. -/
theorem C4_fallback {Score : Type}
    (gen : BuyerPreferences → String → String → Except String String)
    (search_results : List (SearchResult Score)) (prefs : BuyerPreferences) :
    (personalize_listings gen search_results prefs).length = search_results.length ∧
    ∀ (i : Nat) (r : SearchResult Score), search_results[i]? = some r →
      ∀ msg : String,
        gen prefs r.content (r.metadata.get "category" "Unknown") =
          Except.error msg →
        (personalize_listings gen search_results prefs)[i]? = some
          { original_content := r.content
            personalized_description := r.content
            category := r.metadata.get "category" "Unknown"
            similarity_score := r.similarity_score
            preference_highlights := []
            metadata := r.metadata } := by
  constructor
  · simp [personalize_listings]
  · intro i r hr msg hgen
    simp [personalize_listings, List.getElem?_map, hr, hgen]

/-- Closed instance of C4: with a rewrite service that always fails, the
single search result survives with its original content and an empty
highlight list. -/
theorem C4_fallback_witness :
    (personalize_listings (fun _ _ _ => Except.error "service down")
        [({ content := "A bright 2 bedroom flat", metadata := ⟨[("category", "A")]⟩,
            similarity_score := (3 : Int) } : SearchResult Int)] {})[0]? =
      some { original_content := "A bright 2 bedroom flat"
             personalized_description := "A bright 2 bedroom flat"
             category := "A"
             similarity_score := (3 : Int)
             preference_highlights := []
             metadata := ⟨[("category", "A")]⟩ } :=
  (C4_fallback (fun _ _ _ => Except.error "service down")
      [({ content := "A bright 2 bedroom flat", metadata := ⟨[("category", "A")]⟩,
          similarity_score := (3 : Int) } : SearchResult Int)] {}).2
    0 _ rfl "service down" rfl

/-- C6 fails as stated: starting from a fresh store, a load attempt that
opens an empty collection reports failure (no successful ingest or load has
occurred), yet the subsequent semantic_search call returns an empty result
list instead of the not-initialized error, because the handle was assigned
before the emptiness check. -/
theorem C6_counterexample :
    (load_existing_vectorstore (Except.ok ⟨[]⟩) {}).2 = false ∧
    semantic_search (fun _ _ _ _ => ([] : List (StoreDoc × Int)))
        (load_existing_vectorstore (Except.ok ⟨[]⟩) {}).1 "modern flat" 5 none =
      Except.ok [] ∧
    semantic_search (fun _ _ _ _ => ([] : List (StoreDoc × Int)))
        (load_existing_vectorstore (Except.ok ⟨[]⟩) {}).1 "modern flat" 5 none ≠
      Except.error notInitializedMsg := by
  refine ⟨rfl, rfl, ?_⟩
  intro h
  rw [show semantic_search (fun _ _ _ _ => ([] : List (StoreDoc × Int)))
      (load_existing_vectorstore (Except.ok ⟨[]⟩) {}).1 "modern flat" 5 none =
      Except.ok [] from rfl] at h
  exact Except.noConfusion h

/-- C6 amended: semantic_search fails with the not-initialized error
exactly when the vectorstore handle is unassigned, for every query, k and
filter; a fresh store has it unassigned, but a failed load attempt may
assign it, after which the error is no longer raised. -/
theorem C6_amended {Score : Type}
    (searchOracle : ChromaCollection → String → Nat →
      Option (List (String × String)) → List (StoreDoc × Score))
    (s : PropertyVectorStore) (query : String) (k : Nat)
    (filter_dict : Option (List (String × String))) :
    (semantic_search searchOracle s query k filter_dict =
        Except.error notInitializedMsg ↔ s.vectorstore = none) ∧
    ({} : PropertyVectorStore).vectorstore = none := by
  refine ⟨?_, rfl⟩
  cases hv : s.vectorstore <;> simp [semantic_search, hv]

/-- C7 fails as stated: the corpus file containing `[]` — valid JSON, a
malformed corpus (not a mapping) — makes the ingest attempt raise an
uncaught AttributeError at raw_data.items() instead of failing with the
corpus-not-found error; the store is left untouched (nothing committed,
handle still unassigned), but the reported failure is not the corpus
error the claim requires. -/
theorem C7_counterexample :
    load_listings_from_json (ReadResult.parsed (Json.arr [])) (fun _ _ => "ab12cd34") =
      Except.error PyError.attributeError ∧
    setup_vectorstore (Except.error "no collection")
        (ReadResult.parsed (Json.arr [])) (fun _ _ => "ab12cd34") false {} =
      ({}, Except.error PyError.attributeError) ∧
    ({} : PropertyVectorStore).vectorstore = none :=
  ⟨rfl, rfl, rfl⟩

/-- C7 amended: a missing corpus file or one that fails JSON parsing is
caught and reported cleanly (no listings, setup fails with nothing
committed when the load phase also failed); but a non-UTF-8 file, a parsed
corpus that is not a mapping, or a category value that is not iterable
escapes the corpus-error handling as an uncaught exception
(UnicodeDecodeError, AttributeError, TypeError) — the ingest path still
commits nothing, the store state staying exactly as the load phase left
it — and a category mapped to a string is silently accepted, ingesting one
single-character listing per character. -/
theorem C7_amended (chromaOpen : Except String ChromaCollection)
    (randSuffix : String → Nat → String) (force_rebuild : Bool)
    (s : PropertyVectorStore) (file : ReadResult) :
    load_listings_from_json ReadResult.fileNotFound randSuffix = Except.ok [] ∧
    load_listings_from_json ReadResult.invalidJSON randSuffix = Except.ok [] ∧
    load_listings_from_json ReadResult.undecodable randSuffix =
      Except.error PyError.unicodeDecodeError ∧
    (∀ raw : Json, (∀ fields, raw ≠ Json.obj fields) →
      load_listings_from_json (ReadResult.parsed raw) randSuffix =
        Except.error PyError.attributeError) ∧
    (∀ e : PyError, load_listings_from_json file randSuffix = Except.error e →
      setup_vectorstore chromaOpen file randSuffix force_rebuild s =
        ((load_phase chromaOpen force_rebuild s).1,
          if (load_phase chromaOpen force_rebuild s).2 then Except.ok true
          else Except.error e)) ∧
    (load_listings_from_json file randSuffix = Except.ok [] →
      setup_vectorstore chromaOpen file randSuffix force_rebuild s =
        ((load_phase chromaOpen force_rebuild s).1,
          Except.ok (load_phase chromaOpen force_rebuild s).2)) ∧
    load_listings_from_json
        (ReadResult.parsed (Json.obj [("luxury", Json.str "ab")])) randSuffix =
      Except.ok
        [{ id := "luxury_0_" ++ randSuffix "luxury" 0, category := "luxury",
           content := Json.str "a" },
         { id := "luxury_1_" ++ randSuffix "luxury" 1, category := "luxury",
           content := Json.str "b" }] := by
  refine ⟨rfl, rfl, rfl, ?_, ?_, ?_, rfl⟩
  · intro raw h
    cases raw with
    | obj fields => exact absurd rfl (h fields)
    | null => rfl
    | bool b => rfl
    | num n => rfl
    | str t => rfl
    | arr elements => rfl
  · intro e he
    simp only [setup_vectorstore]
    rw [he]
    cases hlp : (load_phase chromaOpen force_rebuild s).2 <;> simp [hlp]
  · intro hok
    simp only [setup_vectorstore]
    rw [hok]
    cases hlp : (load_phase chromaOpen force_rebuild s).2 <;> simp [hlp]

/-- Closed instance of C7 amended: a non-UTF-8 corpus file makes the
ingest attempt on a fresh store propagate the uncaught UnicodeDecodeError
with the store left untouched. -/
theorem C7_amended_witness :
    setup_vectorstore (Except.error "down") ReadResult.undecodable
        (fun _ _ => "ef56ab78") false {} =
      ({}, Except.error PyError.unicodeDecodeError) :=
  ((C7_amended (Except.error "down") (fun _ _ => "ef56ab78") false {}
      ReadResult.undecodable).2.2.2.2.1 PyError.unicodeDecodeError rfl).trans rfl

end HomeMatch
